import Mathlib

/-!
Shallow embedding of the simple-option covered-call contract
(src/contract.rs).  The single persisted record is `State`; storage is
modelled as `Option State` threaded through each handler.  Each handler
returns the storage after the call together with either a `Response`
(outbound bank-send directives plus diagnostic attributes) or a
`ContractError`, mirroring the Rust control flow line by line.
-/

/-- An account identity (cosmwasm `Addr`), modelled as its string form. -/
abbrev Addr := String

/-- A (denomination, amount) pair (cosmwasm `Coin`). -/
structure Coin where
  denom : String
  amount : Nat
deriving DecidableEq, Repr

/-- The persisted option record (`state.rs::State`). -/
structure State where
  creator : Addr
  owner : Addr
  collateral : List Coin
  counter_offer : List Coin
  expires : Nat
deriving DecidableEq, Repr

/-- Caller identity and attached funds (cosmwasm `MessageInfo`). -/
structure MessageInfo where
  sender : Addr
  funds : List Coin
deriving DecidableEq, Repr

/-- Block metadata: the current ledger height. -/
structure BlockInfo where
  height : Nat
deriving DecidableEq, Repr

/-- Host environment (cosmwasm `Env`), reduced to the block info the
contract reads. -/
structure Env where
  block : BlockInfo
deriving DecidableEq, Repr

/-- Standard-library error (`cosmwasm_std::StdError`), reduced to the two
variants this contract can produce: `notFound` from loading an absent
record, and `genericErr` carrying a message. -/
inductive StdError where
  | notFound
  | genericErr (msg : String)
deriving DecidableEq, Repr

/-- The contract error type (`error.rs::ContractError`). -/
inductive ContractError where
  | std (err : StdError)
  | unauthorized
deriving DecidableEq, Repr

/-- An outbound fund-transfer directive (`BankMsg::Send`). -/
structure BankMsgSend where
  to_address : Addr
  amount : List Coin
deriving DecidableEq, Repr

/-- A diagnostic key/value attribute. -/
structure Attr where
  key : String
  value : String
deriving DecidableEq, Repr

/-- The response of a successful mutating call: outbound transfer
directives plus attributes, each in emission order. -/
structure Response where
  messages : List BankMsgSend
  attributes : List Attr
deriving DecidableEq, Repr

deriving instance DecidableEq for Except

/-- `Response::default()`: no messages, no attributes. -/
def Response.default : Response := { messages := [], attributes := [] }

/-- Rendering of one coin used in formatted error messages (stands in for
the Rust debug output; the exact text is not load-bearing, only which
branch produced the error). -/
def coinRepr (c : Coin) : String := c.denom ++ " " ++ toString c.amount

/-- Rendering of a coin list used in formatted error messages. -/
def coinsRepr : List Coin → String
  | [] => ""
  | [c] => coinRepr c
  | c :: cs => coinRepr c ++ ", " ++ coinsRepr cs

/-- The instantiation message (`msg.rs::InstantiateMsg`). -/
structure InstantiateMsg where
  counter_offer : List Coin
  expires : Nat
deriving DecidableEq, Repr

/-- The execute message variants (`msg.rs::ExecuteMsg`). -/
inductive ExecuteMsg where
  | Transfer (recipient : Addr)
  | Execute
  | Burn
deriving DecidableEq, Repr

/-- `contract.rs::instantiate`: rejects `expires ≤ env.block.height`,
otherwise saves `creator = owner = sender`, `collateral = funds`, and the
given `counter_offer` and `expires`, returning `Response::default()`. -/
def instantiate (storage : Option State) (env : Env) (info : MessageInfo)
    (msg : InstantiateMsg) : Option State × Except ContractError Response :=
  if msg.expires ≤ env.block.height then
    (storage, Except.error (ContractError.std
      (StdError.genericErr "Cannot create expired option")))
  else
    (some { creator := info.sender, owner := info.sender,
            collateral := info.funds, counter_offer := msg.counter_offer,
            expires := msg.expires },
     Except.ok Response.default)

/-- `contract.rs::try_transfer`: loads the record (`NotFound` if absent),
requires `sender = owner` (`Unauthorized` otherwise), then saves the record
with `owner := recipient` and emits attributes `action=transfer`,
`owner=<recipient>` and no messages. -/
def try_transfer (storage : Option State) (_env : Env) (info : MessageInfo)
    (recipient : Addr) : Option State × Except ContractError Response :=
  match storage with
  | none => (none, Except.error (ContractError.std StdError.notFound))
  | some state =>
    if info.sender ≠ state.owner then
      (some state, Except.error ContractError.unauthorized)
    else
      (some { state with owner := recipient },
       Except.ok { messages := [],
                   attributes := [{ key := "action", value := "transfer" },
                                  { key := "owner", value := recipient }] })

/-- `contract.rs::try_execute`: loads the record (`NotFound` if absent),
requires `sender = owner` (`Unauthorized`), `height < expires`
(`option expired`), and `funds = counter_offer` as lists
(`must send exact counter_offer`); on success emits the two bank sends
(counter_offer to creator, collateral to owner), removes the record, and
emits `action=execute`. -/
def try_execute (storage : Option State) (env : Env) (info : MessageInfo) :
    Option State × Except ContractError Response :=
  match storage with
  | none => (none, Except.error (ContractError.std StdError.notFound))
  | some state =>
    if info.sender ≠ state.owner then
      (some state, Except.error ContractError.unauthorized)
    else if env.block.height ≥ state.expires then
      (some state, Except.error (ContractError.std
        (StdError.genericErr "option expired")))
    else if info.funds ≠ state.counter_offer then
      (some state, Except.error (ContractError.std (StdError.genericErr
        ("must send exact counter_offer: " ++ coinsRepr state.counter_offer))))
    else
      (none,
       Except.ok
         { messages := [{ to_address := state.creator,
                          amount := state.counter_offer },
                        { to_address := state.owner,
                          amount := state.collateral }],
           attributes := [{ key := "action", value := "execute" }] })

/-- `contract.rs::try_burn`: loads the record (`NotFound` if absent),
requires `height ≥ expires` (`option expired` otherwise) and empty attached
funds (else the formatted dont-send-funds message); on success emits one
bank send (collateral to creator), removes the record, and emits
`action=burn`.  No check of the caller identity is performed. -/
def try_burn (storage : Option State) (env : Env) (info : MessageInfo) :
    Option State × Except ContractError Response :=
  match storage with
  | none => (none, Except.error (ContractError.std StdError.notFound))
  | some state =>
    if env.block.height < state.expires then
      (some state, Except.error (ContractError.std
        (StdError.genericErr "option expired")))
    else if info.funds ≠ [] then
      (some state, Except.error (ContractError.std (StdError.genericErr
        ("dont send funds with burn: " ++ coinsRepr state.counter_offer))))
    else
      (none,
       Except.ok
         { messages := [{ to_address := state.creator,
                          amount := state.collateral }],
           attributes := [{ key := "action", value := "burn" }] })

/-- `contract.rs::execute`: dispatch on the message tag. -/
def execute (storage : Option State) (env : Env) (info : MessageInfo)
    (msg : ExecuteMsg) : Option State × Except ContractError Response :=
  match msg with
  | ExecuteMsg.Transfer recipient => try_transfer storage env info recipient
  | ExecuteMsg.Execute => try_execute storage env info
  | ExecuteMsg.Burn => try_burn storage env info

/-- `contract.rs::query_config`: returns the stored record, or
`StdError::NotFound` once it is absent. -/
def query_config (storage : Option State) : Except StdError State :=
  match storage with
  | none => Except.error StdError.notFound
  | some state => Except.ok state

/-- Runs a sequence of execute-side calls, threading the storage
(each element supplies the env, caller info and message of one call). -/
def runExec (storage : Option State) :
    List (Env × MessageInfo × ExecuteMsg) → Option State
  | [] => storage
  | step :: rest =>
    runExec (execute storage step.1 step.2.1 step.2.2).1 rest

/-- A chain of Transfer calls each made by the then-current owner: every
step calls `try_transfer` with `sender := st.owner` and the next recipient,
and follows the storage it returns. -/
def transferChain (env : Env) (st : State) : List Addr → State
  | [] => st
  | r :: rs =>
    match (try_transfer (some st) env { sender := st.owner, funds := [] } r).1 with
    | some stNext => transferChain env stNext rs
    | none => st

/-- Concrete record from the repository test scenario: creator locks
1 BTC against a 40 ETH counter-offer, expiring at height 100000, already
transferred to "owner". -/
def stEx : State :=
  { creator := "creator", owner := "owner",
    collateral := [{ denom := "BTC", amount := 1 }],
    counter_offer := [{ denom := "ETH", amount := 40 }], expires := 100000 }

/-- Environment at height 50000, before `stEx` expires. -/
def envLive : Env := { block := { height := 50000 } }

/-- Environment at height 200000, after `stEx` expires. -/
def envLate : Env := { block := { height := 200000 } }

/-- Caller "owner" attaching the exact counter-offer of `stEx`. -/
def infoExecOk : MessageInfo :=
  { sender := "owner", funds := [{ denom := "ETH", amount := 40 }] }

/-- An unrelated caller with no attached funds. -/
def infoAnyone : MessageInfo := { sender := "anyone", funds := [] }

/-- The creator instantiating with 1 BTC attached. -/
def infoCreate : MessageInfo :=
  { sender := "creator", funds := [{ denom := "BTC", amount := 1 }] }

/-- The instantiation message of the test scenario. -/
def msgCreate : InstantiateMsg :=
  { counter_offer := [{ denom := "ETH", amount := 40 }], expires := 100000 }

/-- Environment at height 0 (instantiation time in the test scenario). -/
def envZero : Env := { block := { height := 0 } }

/-- A record whose counter-offer has two coins, to probe order
sensitivity of the exercise funds check. -/
def stPerm : State :=
  { creator := "creator", owner := "owner",
    collateral := [{ denom := "BTC", amount := 1 }],
    counter_offer := [{ denom := "ATOM", amount := 1 },
                      { denom := "OSMO", amount := 2 }],
    expires := 100 }

/-- The owner attaching the same two coins as `stPerm.counter_offer` but
listed in the opposite order. -/
def infoPerm : MessageInfo :=
  { sender := "owner", funds := [{ denom := "OSMO", amount := 2 },
                                 { denom := "ATOM", amount := 1 }] }

/-- Environment at height 10, before `stPerm` expires. -/
def envPerm : Env := { block := { height := 10 } }

/-- C3: instantiation with `expires` less than or equal to the current
height always fails with the InvalidExpiry condition (the generic
cannot-create-expired-option error) and writes nothing; with `expires`
strictly greater it always succeeds, persists a state with
`creator = owner = caller`, `collateral =` attached funds, and
`counter_offer` and `expires` exactly as given, and emits no outbound
transfer directives. -/
theorem instantiate_characterization (storage : Option State) (env : Env)
    (info : MessageInfo) (msg : InstantiateMsg) :
    (msg.expires ≤ env.block.height →
      instantiate storage env info msg =
        (storage, Except.error (ContractError.std
          (StdError.genericErr "Cannot create expired option"))))
    ∧ (env.block.height < msg.expires →
      instantiate storage env info msg =
        (some { creator := info.sender, owner := info.sender,
                collateral := info.funds,
                counter_offer := msg.counter_offer, expires := msg.expires },
         Except.ok { messages := [], attributes := [] })) := by
  constructor
  · intro h
    simp [instantiate, h]
  · intro h
    simp [instantiate, Nat.not_le.mpr h, Response.default]

/-- Witness for C3: the test-scenario instantiation at height 0 with
expiry 100000 succeeds and persists the expected record. -/
theorem instantiate_characterization_witness :
    instantiate none envZero infoCreate msgCreate =
      (some { creator := infoCreate.sender, owner := infoCreate.sender,
              collateral := infoCreate.funds,
              counter_offer := msgCreate.counter_offer,
              expires := msgCreate.expires },
       Except.ok { messages := [], attributes := [] }) :=
  (instantiate_characterization none envZero infoCreate msgCreate).2 (by decide)

/-- C10: instantiation validates only the expiry: for every caller and
every `expires` strictly greater than the current height it succeeds, even
when the attached funds are empty or the counter-offer list is empty, and
the persisted collateral (or counter-offer) is then the empty coin list. -/
theorem instantiate_validates_only_expiry (storage : Option State)
    (env : Env) (info : MessageInfo) (msg : InstantiateMsg)
    (h : env.block.height < msg.expires) :
    instantiate storage env info msg =
      (some { creator := info.sender, owner := info.sender,
              collateral := info.funds,
              counter_offer := msg.counter_offer, expires := msg.expires },
       Except.ok Response.default) := by
  simp [instantiate, Nat.not_le.mpr h]

/-- Witness for C10: instantiation with empty attached funds and an empty
counter-offer still succeeds and persists empty coin lists. -/
theorem instantiate_validates_only_expiry_witness :
    instantiate none envZero { sender := "creator", funds := [] }
        { counter_offer := [], expires := 5 } =
      (some { creator := "creator", owner := "creator", collateral := [],
              counter_offer := [], expires := 5 },
       Except.ok Response.default) :=
  instantiate_validates_only_expiry none envZero
    { sender := "creator", funds := [] }
    { counter_offer := [], expires := 5 } (by decide)

/-- C9: the Transfer handler performs no expiry check: its result does not
depend on the environment at all, and for every height greater than or
equal to `expires` a Transfer by the current owner still succeeds and
reassigns the owner. -/
theorem transfer_no_expiry_check (st : State) (env envAlt : Env)
    (info : MessageInfo) (recipient : Addr) :
    try_transfer (some st) env info recipient =
      try_transfer (some st) envAlt info recipient
    ∧ (info.sender = st.owner → st.expires ≤ env.block.height →
        try_transfer (some st) env info recipient =
          (some { st with owner := recipient },
           Except.ok { messages := [],
                       attributes := [{ key := "action", value := "transfer" },
                                      { key := "owner",
                                        value := recipient }] })) := by
  constructor
  · rfl
  · intro hown _hexp
    simp [try_transfer, hown]

/-- Witness for C9: at height 200000, past the expiry 100000 of `stEx`,
the owner can still transfer the option. -/
theorem transfer_no_expiry_check_witness :
    try_transfer (some stEx) envLate { sender := "owner", funds := [] }
        "late" =
      (some { stEx with owner := "late" },
       Except.ok { messages := [],
                   attributes := [{ key := "action", value := "transfer" },
                                  { key := "owner", value := "late" }] }) :=
  (transfer_no_expiry_check stEx envLate envLate
    { sender := "owner", funds := [] } "late").2 rfl (by decide)

/-- C5: every Transfer by the current owner sets `owner` to exactly the
specified recipient, leaves `creator`, `collateral`, `counter_offer` and
`expires` unchanged, emits no outbound fund-transfer directive, and emits
the attributes `action=transfer` and `owner=<recipient>`; consequently a
chain of Transfers each made by the then-current owner leaves every field
but `owner` unchanged, and `owner` ends at the last recipient. -/
theorem transfer_frame (env : Env) (st : State) :
    (∀ info recipient, info.sender = st.owner →
      try_transfer (some st) env info recipient =
        (some { st with owner := recipient },
         Except.ok { messages := [],
                     attributes := [{ key := "action", value := "transfer" },
                                    { key := "owner", value := recipient }] }))
    ∧ (∀ rs : List Addr,
        (transferChain env st rs).creator = st.creator
        ∧ (transferChain env st rs).collateral = st.collateral
        ∧ (transferChain env st rs).counter_offer = st.counter_offer
        ∧ (transferChain env st rs).expires = st.expires
        ∧ (transferChain env st rs).owner =
            rs.foldl (fun _ r => r) st.owner) := by
  constructor
  · intro info recipient hown
    simp [try_transfer, hown]
  · intro rs
    induction rs generalizing st with
    | nil => exact ⟨rfl, rfl, rfl, rfl, rfl⟩
    | cons r rest ih =>
      have hstep : (try_transfer (some st) env
          { sender := st.owner, funds := [] } r).1 =
          some { st with owner := r } := by
        simp [try_transfer]
      have hchain : transferChain env st (r :: rest) =
          transferChain env { st with owner := r } rest := by
        simp [transferChain, hstep]
      obtain ⟨h1, h2, h3, h4, h5⟩ := ih { st with owner := r }
      rw [hchain]
      exact ⟨h1, h2, h3, h4, by simpa using h5⟩

/-- The record as persisted by the test-scenario instantiation, before
any transfer: creator and owner are both "creator". -/
def stCreated : State :=
  { creator := "creator", owner := "creator",
    collateral := [{ denom := "BTC", amount := 1 }],
    counter_offer := [{ denom := "ETH", amount := 40 }], expires := 100000 }

/-- Witness for C5: in the test scenario the creator transfers to "owner";
the single step succeeds with the expected record and attributes. -/
theorem transfer_frame_witness :
    try_transfer (some stCreated) envZero
        { sender := "creator", funds := [] } "owner" =
      (some { stCreated with owner := "owner" },
       Except.ok { messages := [],
                   attributes := [{ key := "action", value := "transfer" },
                                  { key := "owner", value := "owner" }] }) :=
  (transfer_frame envZero stCreated).1
    { sender := "creator", funds := [] } "owner" rfl

/-- C1: the Exercise handler succeeds iff the record exists, the caller is
the current owner, the height is strictly below `expires`, and the attached
funds equal `counter_offer`; on success it returns exactly the two bank
sends (counter_offer to creator, then collateral to the owner), deletes
the record, and emits `action=execute`; the checks run in the order
record-exists, owner, expiry, funds, and the first failure determines the
error. -/
theorem exercise_characterization (storage : Option State) (env : Env)
    (info : MessageInfo) :
    ((∃ resp, (try_execute storage env info).2 = Except.ok resp) ↔
      ∃ st, storage = some st ∧ info.sender = st.owner ∧
        env.block.height < st.expires ∧ info.funds = st.counter_offer)
    ∧ (∀ st, storage = some st → info.sender = st.owner →
        env.block.height < st.expires → info.funds = st.counter_offer →
        try_execute storage env info =
          (none, Except.ok
            { messages := [{ to_address := st.creator,
                             amount := st.counter_offer },
                           { to_address := st.owner,
                             amount := st.collateral }],
              attributes := [{ key := "action", value := "execute" }] }))
    ∧ (storage = none →
        (try_execute storage env info).2 =
          Except.error (ContractError.std StdError.notFound))
    ∧ (∀ st, storage = some st → info.sender ≠ st.owner →
        (try_execute storage env info).2 =
          Except.error ContractError.unauthorized)
    ∧ (∀ st, storage = some st → info.sender = st.owner →
        st.expires ≤ env.block.height →
        (try_execute storage env info).2 =
          Except.error (ContractError.std
            (StdError.genericErr "option expired")))
    ∧ (∀ st, storage = some st → info.sender = st.owner →
        env.block.height < st.expires → info.funds ≠ st.counter_offer →
        (try_execute storage env info).2 =
          Except.error (ContractError.std (StdError.genericErr
            ("must send exact counter_offer: " ++
              coinsRepr st.counter_offer)))) := by
  refine ⟨⟨?_, ?_⟩, ?_, ?_, ?_, ?_, ?_⟩
  · rintro ⟨resp, hresp⟩
    cases storage with
    | none => simp [try_execute] at hresp
    | some st =>
      by_cases hs : info.sender = st.owner
      · by_cases hh : env.block.height < st.expires
        · by_cases hf : info.funds = st.counter_offer
          · exact ⟨st, rfl, hs, hh, hf⟩
          · simp [try_execute, hs, hf, Nat.not_le.mpr hh] at hresp
        · simp [try_execute, hs, Nat.le_of_not_lt hh] at hresp
      · simp [try_execute, hs] at hresp
  · rintro ⟨st, rfl, hs, hh, hf⟩
    exact ⟨{ messages := [{ to_address := st.creator,
                            amount := st.counter_offer },
                          { to_address := st.owner,
                            amount := st.collateral }],
             attributes := [{ key := "action", value := "execute" }] },
           by simp [try_execute, hs, hf, Nat.not_le.mpr hh]⟩
  · rintro st rfl hs hh hf
    simp [try_execute, hs, hf, Nat.not_le.mpr hh]
  · rintro rfl
    simp [try_execute]
  · rintro st rfl hs
    simp [try_execute, hs]
  · rintro st rfl hs hle
    simp [try_execute, hs, hle]
  · rintro st rfl hs hh hf
    simp [try_execute, hs, hf, Nat.not_le.mpr hh]

/-- Witness for C1: the test-scenario exercise at height 50000 by "owner"
with 40 ETH attached succeeds, deletes the record, and emits the two
transfers and `action=execute`. -/
theorem exercise_characterization_witness :
    try_execute (some stEx) envLive infoExecOk =
      (none, Except.ok
        { messages := [{ to_address := stEx.creator,
                         amount := stEx.counter_offer },
                       { to_address := stEx.owner,
                         amount := stEx.collateral }],
          attributes := [{ key := "action", value := "execute" }] }) :=
  (exercise_characterization (some stEx) envLive infoExecOk).2.1 stEx rfl
    rfl (by decide) rfl

/-- C2: the Reclaim (Burn) handler succeeds iff the record exists, the
height is at least `expires`, and the attached funds are empty — the
caller identity is never checked; on success it returns exactly one bank
send of the collateral to the creator, deletes the record, and emits
`action=burn`. -/
theorem burn_characterization (storage : Option State) (env : Env)
    (info : MessageInfo) :
    ((∃ resp, (try_burn storage env info).2 = Except.ok resp) ↔
      ∃ st, storage = some st ∧ st.expires ≤ env.block.height ∧
        info.funds = [])
    ∧ (∀ st, storage = some st → st.expires ≤ env.block.height →
        info.funds = [] →
        try_burn storage env info =
          (none, Except.ok
            { messages := [{ to_address := st.creator,
                             amount := st.collateral }],
              attributes := [{ key := "action", value := "burn" }] }))
    ∧ (storage = none →
        (try_burn storage env info).2 =
          Except.error (ContractError.std StdError.notFound)) := by
  refine ⟨⟨?_, ?_⟩, ?_, ?_⟩
  · rintro ⟨resp, hresp⟩
    cases storage with
    | none => simp [try_burn] at hresp
    | some st =>
      by_cases hh : st.expires ≤ env.block.height
      · by_cases hf : info.funds = []
        · exact ⟨st, rfl, hh, hf⟩
        · simp [try_burn, hf, Nat.not_lt.mpr hh] at hresp
      · simp [try_burn, Nat.lt_of_not_le hh] at hresp
  · rintro ⟨st, rfl, hh, hf⟩
    exact ⟨{ messages := [{ to_address := st.creator,
                            amount := st.collateral }],
             attributes := [{ key := "action", value := "burn" }] },
           by simp [try_burn, hf, Nat.not_lt.mpr hh]⟩
  · rintro st rfl hh hf
    simp [try_burn, hf, Nat.not_lt.mpr hh]
  · rintro rfl
    simp [try_burn]

/-- Witness for C2: reclaim of `stEx` at height 200000 by the unrelated
caller "anyone" with no funds succeeds, sending the 1 BTC collateral to
"creator" and deleting the record. -/
theorem burn_characterization_witness :
    try_burn (some stEx) envLate infoAnyone =
      (none, Except.ok
        { messages := [{ to_address := stEx.creator,
                         amount := stEx.collateral }],
          attributes := [{ key := "action", value := "burn" }] }) :=
  (burn_characterization (some stEx) envLate infoAnyone).2.1 stEx rfl
    (by decide) rfl

/-- Counterexample to C6 as stated: `infoPerm.funds` is a permutation of
`stPerm.counter_offer` (same denominations and amounts, listed in the
opposite order), the caller is the owner and the option is unexpired, yet
the funds check fails with the FundsMismatch error, because the source
compares the two coin vectors with `!=`, which is order-sensitive. -/
theorem exercise_funds_order_counterexample :
    List.Perm infoPerm.funds stPerm.counter_offer ∧
    (try_execute (some stPerm) envPerm infoPerm).2 =
      Except.error (ContractError.std (StdError.genericErr
        ("must send exact counter_offer: " ++
          coinsRepr stPerm.counter_offer))) := by
  constructor
  · decide
  · decide

/-- C6 amended: the Exercise funds precondition compares the attached
funds to `counter_offer` as ordered lists — with the record present, the
caller the owner and the option unexpired, the handler succeeds iff the
attached funds list equals `counter_offer` element for element in the same
order; a permutation listing the same coins in another order fails with
FundsMismatch. -/
theorem exercise_funds_check_list_eq (st : State) (env : Env)
    (info : MessageInfo) (hs : info.sender = st.owner)
    (hh : env.block.height < st.expires) :
    (∃ resp, (try_execute (some st) env info).2 = Except.ok resp) ↔
      info.funds = st.counter_offer := by
  constructor
  · rintro ⟨resp, hresp⟩
    by_cases hf : info.funds = st.counter_offer
    · exact hf
    · simp [try_execute, hs, hf, Nat.not_le.mpr hh] at hresp
  · intro hf
    exact ⟨{ messages := [{ to_address := st.creator,
                            amount := st.counter_offer },
                          { to_address := st.owner,
                            amount := st.collateral }],
             attributes := [{ key := "action", value := "execute" }] },
           by simp [try_execute, hs, hf, Nat.not_le.mpr hh]⟩

/-- Witness for the amended C6: for the two-coin record `stPerm`, with the
owner calling before expiry, success is equivalent to sending the coin
list in exactly the stored order. -/
theorem exercise_funds_check_list_eq_witness :
    (∃ resp, (try_execute (some stPerm) envPerm infoPerm).2 =
        Except.ok resp) ↔
      infoPerm.funds = stPerm.counter_offer :=
  exercise_funds_check_list_eq stPerm envPerm infoPerm rfl (by decide)

/-- C4: every validation failure is all-or-nothing: whenever a handler
(instantiate, transfer, exercise, burn) returns an error, the storage
after the call equals the storage before it.  In this embedding an error
result carries no `Response` at all, so an erroring call also emits zero
outbound transfer directives. -/
theorem error_is_all_or_nothing (storage : Option State) (env : Env)
    (info : MessageInfo) :
    (∀ msg err, (instantiate storage env info msg).2 = Except.error err →
      (instantiate storage env info msg).1 = storage)
    ∧ (∀ recipient err,
        (try_transfer storage env info recipient).2 = Except.error err →
        (try_transfer storage env info recipient).1 = storage)
    ∧ (∀ err, (try_execute storage env info).2 = Except.error err →
        (try_execute storage env info).1 = storage)
    ∧ (∀ err, (try_burn storage env info).2 = Except.error err →
        (try_burn storage env info).1 = storage) := by
  refine ⟨?_, ?_, ?_, ?_⟩
  · intro msg err h
    by_cases hc : msg.expires ≤ env.block.height
    · simp [instantiate, hc]
    · simp [instantiate, hc] at h
  · intro recipient err h
    cases storage with
    | none => rfl
    | some st =>
      by_cases hs : info.sender = st.owner
      · simp [try_transfer, hs] at h
      · simp [try_transfer, hs]
  · intro err h
    cases storage with
    | none => rfl
    | some st =>
      by_cases hs : info.sender = st.owner
      · by_cases hh : env.block.height < st.expires
        · by_cases hf : info.funds = st.counter_offer
          · simp [try_execute, hs, hf, Nat.not_le.mpr hh] at h
          · simp [try_execute, hs, hf, Nat.not_le.mpr hh]
        · simp [try_execute, hs, Nat.le_of_not_lt hh]
      · simp [try_execute, hs]
  · intro err h
    cases storage with
    | none => rfl
    | some st =>
      by_cases hh : st.expires ≤ env.block.height
      · by_cases hf : info.funds = []
        · simp [try_burn, hf, Nat.not_lt.mpr hh] at h
        · simp [try_burn, hf, Nat.not_lt.mpr hh]
      · simp [try_burn, Nat.lt_of_not_le hh]

/-- Witness for C4: the unauthorized transfer attempt by "anyone" leaves
the stored record unchanged. -/
theorem error_is_all_or_nothing_witness :
    (try_transfer (some stEx) envLive infoAnyone "anyone").1 = some stEx :=
  (error_is_all_or_nothing (some stEx) envLive infoAnyone).2.1 "anyone"
    ContractError.unauthorized (by decide)

/-- Any execute-side call that leaves a record in storage either left the
stored record untouched or only rewrote its `owner` field. -/
theorem execute_record_cases (storage : Option State) (env : Env)
    (info : MessageInfo) (msg : ExecuteMsg) (stAfter : State)
    (h : (execute storage env info msg).1 = some stAfter) :
    storage = some stAfter ∨
      ∃ st r, storage = some st ∧ stAfter = { st with owner := r } := by
  cases storage with
  | none =>
    cases msg <;> simp [execute, try_transfer, try_execute, try_burn] at h
  | some st =>
    cases msg with
    | Transfer recipient =>
      by_cases hs : info.sender = st.owner
      · right
        refine ⟨st, recipient, rfl, ?_⟩
        simp [execute, try_transfer, hs] at h
        exact h.symm
      · left
        simp [execute, try_transfer, hs] at h
        rw [h]
    | Execute =>
      by_cases hs : info.sender = st.owner
      · by_cases hh : env.block.height < st.expires
        · by_cases hf : info.funds = st.counter_offer
          · simp [execute, try_execute, hs, hf, Nat.not_le.mpr hh] at h
          · left
            simp [execute, try_execute, hs, hf, Nat.not_le.mpr hh] at h
            rw [h]
        · left
          simp [execute, try_execute, hs, Nat.le_of_not_lt hh] at h
          rw [h]
      · left
        simp [execute, try_execute, hs] at h
        rw [h]
    | Burn =>
      by_cases hh : st.expires ≤ env.block.height
      · by_cases hf : info.funds = []
        · simp [execute, try_burn, hf, Nat.not_lt.mpr hh] at h
        · left
          simp [execute, try_burn, hf, Nat.not_lt.mpr hh] at h
          rw [h]
      · left
        simp [execute, try_burn, Nat.lt_of_not_le hh] at h
        rw [h]

/-- Any execute-side call that leaves a record in storage preserves its
`creator`, `collateral`, `counter_offer` and `expires` fields. -/
theorem execute_preserves_fields (storage : Option State) (env : Env)
    (info : MessageInfo) (msg : ExecuteMsg) (stAfter : State)
    (h : (execute storage env info msg).1 = some stAfter) :
    ∃ st, storage = some st ∧ stAfter.creator = st.creator ∧
      stAfter.collateral = st.collateral ∧
      stAfter.counter_offer = st.counter_offer ∧
      stAfter.expires = st.expires := by
  rcases execute_record_cases storage env info msg stAfter h with
    h1 | ⟨st, r, hst, hEq⟩
  · exact ⟨stAfter, h1, rfl, rfl, rfl, rfl⟩
  · subst hEq
    exact ⟨st, hst, rfl, rfl, rfl, rfl⟩

/-- Across any sequence of execute-side calls, a record still present at
the end has the same `creator`, `collateral`, `counter_offer` and
`expires` as the record present at the start. -/
theorem runExec_preserves_record :
    ∀ (steps : List (Env × MessageInfo × ExecuteMsg))
      (storage : Option State) (stAfter : State),
      runExec storage steps = some stAfter →
      ∃ st, storage = some st ∧ stAfter.creator = st.creator ∧
        stAfter.collateral = st.collateral ∧
        stAfter.counter_offer = st.counter_offer ∧
        stAfter.expires = st.expires := by
  intro steps
  induction steps with
  | nil =>
    intro storage stAfter h
    exact ⟨stAfter, h, rfl, rfl, rfl, rfl⟩
  | cons step rest ih =>
    intro storage stAfter h
    simp only [runExec] at h
    obtain ⟨stMid, hmid, m1, m2, m3, m4⟩ := ih _ _ h
    obtain ⟨st, hst, g1, g2, g3, g4⟩ :=
      execute_preserves_fields storage step.1 step.2.1 step.2.2 stMid hmid
    exact ⟨st, hst, m1.trans g1, m2.trans g2, m3.trans g3, m4.trans g4⟩

/-- C7: value conservation across the lifecycle.  For every run that
instantiates with attached funds F and then performs any sequence of
execute-side calls, a record still stored has `collateral = F` and
`creator` equal to the instantiating caller (no intermediate operation
alters the stored collateral); a then-successful Exercise emits exactly
`counter_offer` to the creator followed by F to the current owner, and a
then-successful Reclaim emits exactly F to the creator. -/
theorem value_conservation (env0 : Env) (info0 : MessageInfo)
    (imsg : InstantiateMsg) (h0 : env0.block.height < imsg.expires)
    (steps : List (Env × MessageInfo × ExecuteMsg)) :
    (∀ st, runExec (instantiate none env0 info0 imsg).1 steps = some st →
      st.creator = info0.sender ∧ st.collateral = info0.funds)
    ∧ (∀ st envN infoN resp,
        runExec (instantiate none env0 info0 imsg).1 steps = some st →
        (try_execute (some st) envN infoN).2 = Except.ok resp →
        resp.messages = [{ to_address := info0.sender,
                           amount := st.counter_offer },
                         { to_address := st.owner,
                           amount := info0.funds }])
    ∧ (∀ st envN infoN resp,
        runExec (instantiate none env0 info0 imsg).1 steps = some st →
        (try_burn (some st) envN infoN).2 = Except.ok resp →
        resp.messages = [{ to_address := info0.sender,
                           amount := info0.funds }]) := by
  have hstart : (instantiate none env0 info0 imsg).1 =
      some { creator := info0.sender, owner := info0.sender,
             collateral := info0.funds,
             counter_offer := imsg.counter_offer, expires := imsg.expires } := by
    simp [instantiate, Nat.not_le.mpr h0]
  have hinv : ∀ st,
      runExec (instantiate none env0 info0 imsg).1 steps = some st →
      st.creator = info0.sender ∧ st.collateral = info0.funds := by
    intro st h
    obtain ⟨st0, hst0, g1, g2, _, _⟩ := runExec_preserves_record steps _ _ h
    rw [hstart] at hst0
    injection hst0 with hrec
    subst hrec
    exact ⟨g1, g2⟩
  refine ⟨hinv, ?_, ?_⟩
  · intro st envN infoN resp hreach hok
    obtain ⟨hc, hcol⟩ := hinv st hreach
    by_cases hs : infoN.sender = st.owner
    · by_cases hh : envN.block.height < st.expires
      · by_cases hf : infoN.funds = st.counter_offer
        · simp [try_execute, hs, hf, Nat.not_le.mpr hh] at hok
          rw [← hok]
          simp [hc, hcol]
        · simp [try_execute, hs, hf, Nat.not_le.mpr hh] at hok
      · simp [try_execute, hs, Nat.le_of_not_lt hh] at hok
    · simp [try_execute, hs] at hok
  · intro st envN infoN resp hreach hok
    obtain ⟨hc, hcol⟩ := hinv st hreach
    by_cases hh : st.expires ≤ envN.block.height
    · by_cases hf : infoN.funds = []
      · simp [try_burn, hf, Nat.not_lt.mpr hh] at hok
        rw [← hok]
        simp [hc, hcol]
      · simp [try_burn, hf, Nat.not_lt.mpr hh] at hok
    · simp [try_burn, Nat.lt_of_not_le hh] at hok

/-- The single transfer step of the test scenario, as an execute-call
sequence. -/
def steps1 : List (Env × MessageInfo × ExecuteMsg) :=
  [(envZero, { sender := "creator", funds := [] }, ExecuteMsg.Transfer "owner")]

/-- Witness for C7: after instantiating the test scenario and transferring
to "owner", the stored record still carries the creator identity and the
1 BTC collateral deposited at creation. -/
theorem value_conservation_witness :
    stEx.creator = infoCreate.sender ∧ stEx.collateral = infoCreate.funds :=
  (value_conservation envZero infoCreate msgCreate (by decide) steps1).1
    stEx (by decide)

/-- Every execute-side call against empty storage fails with NotFound and
leaves the storage empty. -/
theorem execute_on_empty (env : Env) (info : MessageInfo)
    (msg : ExecuteMsg) :
    execute none env info msg =
      (none, Except.error (ContractError.std StdError.notFound)) := by
  cases msg <;> rfl

/-- C8: a successful Exercise or Reclaim deletes the record, and an
instance with no record is permanently inert: every later sequence of
execute-side calls leaves the storage empty, every single Transfer,
Exercise or Burn against it fails with NotFound (hence emits no transfer
directives), and the Config query fails with NotFound. -/
theorem settled_is_inert (storage : Option State) (env : Env)
    (info : MessageInfo) :
    (∀ resp, (try_execute storage env info).2 = Except.ok resp →
      (try_execute storage env info).1 = none)
    ∧ (∀ resp, (try_burn storage env info).2 = Except.ok resp →
      (try_burn storage env info).1 = none)
    ∧ (∀ steps, runExec none steps = none)
    ∧ (∀ envN infoN msg, execute none envN infoN msg =
        (none, Except.error (ContractError.std StdError.notFound)))
    ∧ query_config none = Except.error StdError.notFound := by
  refine ⟨?_, ?_, ?_, ?_, rfl⟩
  · intro resp h
    cases storage with
    | none => rfl
    | some st =>
      by_cases hs : info.sender = st.owner
      · by_cases hh : env.block.height < st.expires
        · by_cases hf : info.funds = st.counter_offer
          · simp [try_execute, hs, hf, Nat.not_le.mpr hh]
          · simp [try_execute, hs, hf, Nat.not_le.mpr hh] at h
        · simp [try_execute, hs, Nat.le_of_not_lt hh] at h
      · simp [try_execute, hs] at h
  · intro resp h
    cases storage with
    | none => rfl
    | some st =>
      by_cases hh : st.expires ≤ env.block.height
      · by_cases hf : info.funds = []
        · simp [try_burn, hf, Nat.not_lt.mpr hh]
        · simp [try_burn, hf, Nat.not_lt.mpr hh] at h
      · simp [try_burn, Nat.lt_of_not_le hh] at h
  · intro steps
    induction steps with
    | nil => rfl
    | cons step rest ih =>
      simp only [runExec, execute_on_empty]
      exact ih
  · intro envN infoN msg
    exact execute_on_empty envN infoN msg

/-- The response of the successful test-scenario exercise. -/
def respExec : Response :=
  { messages := [{ to_address := "creator",
                   amount := [{ denom := "ETH", amount := 40 }] },
                 { to_address := "owner",
                   amount := [{ denom := "BTC", amount := 1 }] }],
    attributes := [{ key := "action", value := "execute" }] }

/-- Witness for C8: the successful test-scenario exercise leaves the
storage empty. -/
theorem settled_is_inert_witness :
    (try_execute (some stEx) envLive infoExecOk).1 = none :=
  (settled_is_inert (some stEx) envLive infoExecOk).1 respExec (by decide)
